import Mathlib

/-!
Verification development for the canvas-mcp transport gateway
(`src/canvas_mcp/server.py`).

The file embeds, as executable Lean definitions, the behavior of:
  * the module-import patching loop over `mcp.server.transport_security`
    (lines 26-51 of `server.py`, function `always_pass`);
  * `AggressiveHostFixMiddleware.dispatch` (lines 77-111): the header
    rewrite, the ASGI-scope mutation, and the `ValueError` handling;
and proves or refutes the specification claims about them.
-/

namespace CanvasMCP

/-- ASGI headers: an ordered, multi-valued list of (name, value) pairs.
Header names arrive lowercased from the server, values are raw bytes;
both are modelled as strings. -/
abbrev Headers := List (String × String)

/-- The part of the ASGI `scope` dict that `dispatch` reads or writes:
headers, scheme, server address, client address, plus the request fields
the middleware never touches (method, path, body) and the two bypass
flags it adds. -/
structure Scope where
  headers : Headers
  scheme : String
  server : String × Nat
  client : String × Nat
  method : String
  path : String
  body : String
  mcp_bypass_validation : Bool := false
  railway_fixed : Bool := false
deriving DecidableEq, Repr

/-- The process environment, as the partial map `os.getenv` consults. -/
abbrev Env := String → Option String

/-- Line 78: `os.getenv("RAILWAY_PUBLIC_DOMAIN", "canvas-mcp-production-8183.up.railway.app")`. -/
def railwayDomain (env : Env) : String :=
  (env "RAILWAY_PUBLIC_DOMAIN").getD "canvas-mcp-production-8183.up.railway.app"

/-- The header names treated as host-related by the membership test on
line 90 of `dispatch`. -/
def hostRelated : List String :=
  ["host", "x-forwarded-host", "x-forwarded-proto", "x-forwarded-for"]

/-- Lines 81-86: the fresh header entries `dispatch` puts first. -/
def fixedHeaders (domain : String) : Headers :=
  [("host", domain),
   ("x-forwarded-host", domain),
   ("x-forwarded-proto", "https"),
   ("x-forwarded-for", domain)]

/-- Lines 81-91: build `fixed_headers` and append every original header
whose name is not host-related, in original order. -/
def fixHeaders (domain : String) (hs : Headers) : Headers :=
  fixedHeaders domain ++ hs.filter (fun p => !(hostRelated.contains p.1))

/-- Lines 78-101 of `dispatch`: the scope mutation performed before
`call_next` — replace the headers, force scheme `https`, overwrite the
server and client addresses with `(railway_domain, 443)`, and set the two
bypass flags. -/
def normalizeScope (env : Env) (s : Scope) : Scope :=
  let domain := railwayDomain env
  { s with
    headers := fixHeaders domain s.headers
    scheme := "https"
    server := (domain, 443)
    client := (domain, 443)
    mcp_bypass_validation := true
    railway_fixed := true }

/-- Python's `s.lower()`, on the character list (the strings involved are
ASCII, where `Char.toLower` agrees with Python). -/
def pyLower (s : String) : List Char :=
  s.toList.map Char.toLower

/-- Python's substring test `needle in hay`. -/
def containsSub (needle hay : String) : Bool :=
  decide (needle.toList <:+: hay.toList)

/-- Python's `needle in hay.lower()`. -/
def containsSubLower (needle hay : String) : Bool :=
  decide (needle.toList <:+: pyLower hay)

/-- A Python exception as `dispatch` can observe it: a `ValueError`
carrying its message, or any other exception type (class name and
message). -/
inductive Exc where
  | valueError (msg : String)
  | other (cls : String) (msg : String)
deriving DecidableEq, Repr

/-- A Starlette `Response`; `Response(status_code=200)` has an empty
body. -/
structure Response where
  status : Nat
  body : String
deriving DecidableEq, Repr

/-- Lines 105-111: the `except ValueError` clause. A `ValueError` whose
lowercased message contains `"validation"` is swallowed and answered with
`Response(status_code=200)`; any other `ValueError` is re-raised, and
every other exception type is not caught at all. -/
def handleException (e : Exc) : Except Exc Response :=
  match e with
  | .valueError msg =>
      if containsSubLower "validation" msg then
        .ok ⟨200, ""⟩
      else
        .error (.valueError msg)
  | .other cls msg => .error (.other cls msg)

/-- Lines 77-111: the whole of `AggressiveHostFixMiddleware.dispatch`.
The scope is mutated by `normalizeScope`, handed to `call_next`, and the
downstream outcome is filtered through the `except ValueError` clause. -/
def dispatch (env : Env) (s : Scope)
    (callNext : Scope → Except Exc Response) : Except Exc Response :=
  match callNext (normalizeScope env s) with
  | .ok r => .ok r
  | .error e => handleException e

/-- A Python module attribute as the import-time patching loop sees it:
either a callable (abstracted as a boolean-valued function of its
argument tuple, which is all the patch cares about) or a non-callable
value. -/
inductive Attr where
  | callable (f : String → Bool)
  | value (v : String)

/-- `callable(attr)` on line 33. -/
def Attr.isCallable : Attr → Bool
  | .callable _ => true
  | .value _ => false

/-- Calling an attribute: defined only on callables. -/
def Attr.call : Attr → String → Option Bool
  | .callable f, x => some (f x)
  | .value _, _ => none

/-- Lines 35-36: `def always_pass(*args, **kwargs): return True`. -/
def always_pass : String → Bool := fun _ => true

/-- Line 33: `callable(attr) and 'valid' in attr_name.lower()`. -/
def looksLikeValidation (name : String) (a : Attr) : Bool :=
  a.isCallable && containsSubLower "valid" name

/-- Lines 31-37, body of the loop over `dir(ts_module)`: replace the
attribute with `always_pass` when it looks like a validation function,
leave it alone otherwise. -/
def patchAttr (name : String) (a : Attr) : Attr :=
  if looksLikeValidation name a then .callable always_pass else a

/-- Lines 31-37: the import-time patching pass over the whole
`mcp.server.transport_security` module, modelled as an association list
of attribute names to attributes. -/
def patchModule (m : List (String × Attr)) : List (String × Attr) :=
  m.map (fun p => (p.1, patchAttr p.1 p.2))

/-! ### Helper lemmas -/

theorem filter_fixedHeaders_eq_nil (d : String) :
    (fixedHeaders d).filter (fun p => !(hostRelated.contains p.1)) = [] := by
  rfl

theorem filter_fixHeaders (d : String) (hs : Headers) :
    (fixHeaders d hs).filter (fun p => !(hostRelated.contains p.1)) =
      hs.filter (fun p => !(hostRelated.contains p.1)) := by
  rw [fixHeaders, List.filter_append, filter_fixedHeaders_eq_nil, List.nil_append,
    List.filter_filter]
  simp

theorem fixHeaders_idem (d : String) (hs : Headers) :
    fixHeaders d (fixHeaders d hs) = fixHeaders d hs := by
  conv_lhs => rw [fixHeaders, filter_fixHeaders]
  rw [fixHeaders]

theorem countP_host_fixedHeaders (d : String) :
    (fixedHeaders d).countP (fun p => p.1 == "host") = 1 := by
  rfl

theorem countP_host_filtered (hs : Headers) :
    (hs.filter (fun p => !(hostRelated.contains p.1))).countP (fun p => p.1 == "host") = 0 := by
  rw [List.countP_eq_zero]
  intro a ha
  have hp := List.of_mem_filter ha
  simp only [hostRelated, List.contains_cons, Bool.not_eq_true', Bool.or_eq_false_iff,
    beq_eq_false_iff_ne, ne_eq] at hp
  simpa using hp.1

theorem countP_host_fixHeaders (d : String) (hs : Headers) :
    (fixHeaders d hs).countP (fun p => p.1 == "host") = 1 := by
  rw [fixHeaders, List.countP_append, countP_host_fixedHeaders, countP_host_filtered]

theorem pyLower_infix_of_infix {needle n : String}
    (hmap : needle.toList.map Char.toLower = needle.toList)
    (h : needle.toList <:+: n.toList) : needle.toList <:+: pyLower n := by
  obtain ⟨s, t, hst⟩ := h
  refine ⟨s.map Char.toLower, t.map Char.toLower, ?_⟩
  rw [pyLower, ← hst]
  simp only [List.map_append]
  rw [hmap]

/-! ### Claim theorems -/

/-- C1: for every inbound Connection, whatever identity header values the
client supplied, after the middleware's normalization the `host` header
equals the process's configured public-facing domain (and is the unique
`host` entry), the scheme is `https`, and the server address carries the
nominal secure port 443. -/
theorem C1_host_rewritten_to_domain_https (env : Env) (s : Scope) :
    (normalizeScope env s).headers.find? (fun p => p.1 == "host") =
      some ("host", railwayDomain env) ∧
    (normalizeScope env s).headers.countP (fun p => p.1 == "host") = 1 ∧
    (normalizeScope env s).scheme = "https" ∧
    (normalizeScope env s).server = (railwayDomain env, 443) := by
  refine ⟨rfl, ?_, rfl, rfl⟩
  exact countP_host_fixHeaders _ _

/-- C2 counterexample: a downstream failure (`ValueError` mentioning
"validation") is answered with a `200` success response with empty body,
not with a transport-level error response as the claim states. -/
theorem C2_counterexample_success_on_failure :
    dispatch (fun _ => none)
      ⟨[("host", "proxy.internal")], "http", ("10.0.0.1", 80), ("1.2.3.4", 5555),
        "POST", "/messages/", "", false, false⟩
      (fun _ => .error (.valueError "SSE connection validation failed")) =
      .ok ⟨200, ""⟩ := by
  rfl

/-- C2 amended: when downstream handling of a Connection fails with a
`ValueError` whose lowercased message contains "validation", the
middleware answers the Connection with a 200 success response with empty
body (not a transport-level error); a `ValueError` without that substring
and every other exception type propagate out of the middleware unchanged. -/
theorem C2_amended_failure_policy (env : Env) (s : Scope)
    (msg msg2 cls msg3 : String)
    (h : containsSubLower "validation" msg = true)
    (h2 : containsSubLower "validation" msg2 = false) :
    dispatch env s (fun _ => .error (.valueError msg)) = .ok ⟨200, ""⟩ ∧
    dispatch env s (fun _ => .error (.valueError msg2)) = .error (.valueError msg2) ∧
    dispatch env s (fun _ => .error (.other cls msg3)) = .error (.other cls msg3) := by
  refine ⟨?_, ?_, ?_⟩ <;> simp [dispatch, handleException, h, h2]

/-- Witness for C2 amended at a concrete Connection and concrete
exceptions. -/
theorem C2_amended_failure_policy_witness :
    dispatch (fun _ => none)
      ⟨[("accept", "text/event-stream")], "http", ("10.0.0.1", 80), ("1.2.3.4", 5555),
        "GET", "/sse", "", false, false⟩
      (fun _ => .error (.valueError "Request Validation failed")) = .ok ⟨200, ""⟩ ∧
    dispatch (fun _ => none)
      ⟨[("accept", "text/event-stream")], "http", ("10.0.0.1", 80), ("1.2.3.4", 5555),
        "GET", "/sse", "", false, false⟩
      (fun _ => .error (.valueError "boom")) = .error (.valueError "boom") ∧
    dispatch (fun _ => none)
      ⟨[("accept", "text/event-stream")], "http", ("10.0.0.1", 80), ("1.2.3.4", 5555),
        "GET", "/sse", "", false, false⟩
      (fun _ => .error (.other "RuntimeError" "oops")) =
      .error (.other "RuntimeError" "oops") :=
  C2_amended_failure_policy (fun _ => none)
    ⟨[("accept", "text/event-stream")], "http", ("10.0.0.1", 80), ("1.2.3.4", 5555),
      "GET", "/sse", "", false, false⟩
    "Request Validation failed" "boom" "RuntimeError" "oops" (by decide) (by decide)

/-- C3 counterexample: at module import the program does replace a
library-internal validation function at runtime — a transport-security
attribute named `validate_request_host` that rejected a request returns
`True` for the same request after the patching pass, refuting "does not
replace library-internal functions at runtime to bypass validation". -/
theorem C3_counterexample_function_replaced :
    (patchModule [("validate_request_host", .callable (fun _ => false))]).map
        (fun p => (p.1, p.2.call "spoofed-host")) =
      [("validate_request_host", some true)] ∧
    ([("validate_request_host", Attr.callable (fun _ => false))]).map
        (fun p => (p.1, p.2.call "spoofed-host")) =
      [("validate_request_host", some false)] := by
  exact ⟨rfl, rfl⟩

/-- C3 amended: the middleware itself touches nothing of the Connection
beyond its own scope — restoring the headers, scheme, server and client
addresses, and the two bypass flags recovers the original Connection
exactly, and it rewrites no dependency file — but at module import the
program does replace, at runtime, every transport-security attribute that
is callable and whose lowercased name contains "valid" with a function
returning `True` for every input, leaving all other attributes unchanged. -/
theorem C3_amended_effect_boundary (env : Env) (s : Scope) (n : String) (a : Attr)
    (x : String) :
    ({ normalizeScope env s with
        headers := s.headers
        scheme := s.scheme
        server := s.server
        client := s.client
        mcp_bypass_validation := s.mcp_bypass_validation
        railway_fixed := s.railway_fixed } = s) ∧
    ((patchAttr n a).call x =
      if looksLikeValidation n a then some true else a.call x) := by
  constructor
  · cases s; rfl
  · rw [patchAttr]
    split
    · rfl
    · rfl

/-- C4 counterexample: normalization is not limited to the identity
headers `host`/`origin`/`referer` — on a concrete Connection it rewrites
the `x-forwarded-for` header and replaces the client network address. -/
theorem C4_counterexample_nonidentity_mutated :
    (let s0 : Scope :=
      ⟨[("x-forwarded-for", "1.2.3.4"), ("accept", "text/event-stream")],
        "http", ("10.0.0.1", 80), ("1.2.3.4", 5555), "GET", "/sse", "", false, false⟩
     (normalizeScope (fun _ => none) s0).client ≠ s0.client ∧
     (normalizeScope (fun _ => none) s0).headers.find? (fun p => p.1 == "x-forwarded-for") ≠
       s0.headers.find? (fun p => p.1 == "x-forwarded-for")) := by
  decide

/-- C4 amended: normalization replaces exactly the four host-related
headers (`host`, `x-forwarded-host`, `x-forwarded-proto`,
`x-forwarded-for`) and additionally rewrites the scheme, the server
address, and the client network address; every header outside those four
is preserved with its value and relative order, and the method, path, and
body are left exactly as they were. -/
theorem C4_amended_frame (env : Env) (s : Scope) :
    (normalizeScope env s).method = s.method ∧
    (normalizeScope env s).path = s.path ∧
    (normalizeScope env s).body = s.body ∧
    (normalizeScope env s).headers.filter (fun p => !(hostRelated.contains p.1)) =
      s.headers.filter (fun p => !(hostRelated.contains p.1)) ∧
    (normalizeScope env s).headers =
      fixedHeaders (railwayDomain env) ++
        s.headers.filter (fun p => !(hostRelated.contains p.1)) ∧
    (normalizeScope env s).client = (railwayDomain env, 443) := by
  refine ⟨rfl, rfl, rfl, ?_, rfl, rfl⟩
  exact filter_fixHeaders _ _

/-- C5: normalization is idempotent — applying the middleware's scope
rewrite to an already-normalized Connection yields a byte-identical
Connection (in particular identical headers, with no duplicates
introduced). -/
theorem C5_normalize_idempotent (env : Env) (s : Scope) :
    normalizeScope env (normalizeScope env s) = normalizeScope env s := by
  simp only [normalizeScope]
  rw [fixHeaders_idem]

/-- C6 counterexample: even under a configuration that asks for a strip
strategy, normalization leaves the `host` identity header present (set to
the rewrite domain); no configuration makes the identity headers absent,
so no Strip behavior is selectable. -/
theorem C6_counterexample_no_strip_strategy :
    (normalizeScope (fun k => if k == "MCP_HEADER_STRATEGY" then some "strip" else none)
      ⟨[("host", "client.example"), ("origin", "see-other"), ("referer", "see-other")],
        "http", ("10.0.0.1", 80), ("9.9.9.9", 1234), "GET", "/sse", "", false, false⟩).headers.find?
      (fun p => p.1 == "host") ≠ none := by
  decide

/-- C6 amended: normalization has a single, configuration-independent
behavior — an unconditional rewrite. The only configuration value it
consults is the public-domain variable, and under every configuration the
`host` identity header is present in the normalized Connection (set to
the configured domain), never absent; no strip strategy exists. -/
theorem C6_amended_single_rewrite_behavior (env env' : Env) (s : Scope)
    (h : env "RAILWAY_PUBLIC_DOMAIN" = env' "RAILWAY_PUBLIC_DOMAIN") :
    normalizeScope env s = normalizeScope env' s ∧
    (normalizeScope env s).headers.find? (fun p => p.1 == "host") =
      some ("host", railwayDomain env) := by
  constructor
  · simp only [normalizeScope, railwayDomain, h]
  · rfl

/-- Witness for C6 amended: two concrete environments that differ
everywhere except the public-domain variable normalize a concrete
Connection identically, and its `host` header is present. -/
theorem C6_amended_single_rewrite_behavior_witness :
    normalizeScope (fun k => if k == "MCP_HEADER_STRATEGY" then some "strip" else none)
      ⟨[("host", "client.example")], "http", ("10.0.0.1", 80), ("9.9.9.9", 1234),
        "GET", "/sse", "", false, false⟩ =
      normalizeScope (fun _ => none)
        ⟨[("host", "client.example")], "http", ("10.0.0.1", 80), ("9.9.9.9", 1234),
          "GET", "/sse", "", false, false⟩ ∧
    (normalizeScope (fun k => if k == "MCP_HEADER_STRATEGY" then some "strip" else none)
      ⟨[("host", "client.example")], "http", ("10.0.0.1", 80), ("9.9.9.9", 1234),
        "GET", "/sse", "", false, false⟩).headers.find? (fun p => p.1 == "host") =
      some ("host",
        railwayDomain (fun k => if k == "MCP_HEADER_STRATEGY" then some "strip" else none)) :=
  C6_amended_single_rewrite_behavior
    (fun k => if k == "MCP_HEADER_STRATEGY" then some "strip" else none) (fun _ => none)
    ⟨[("host", "client.example")], "http", ("10.0.0.1", 80), ("9.9.9.9", 1234),
      "GET", "/sse", "", false, false⟩ (by decide)

/-- C7 counterexample: a `POST` to the event-stream path `/sse` (the
non-conformant pattern) is not rewritten to the message-submission path —
the middleware passes it downstream with its path unchanged, so no
Method/Path Reconciler exists in the code. -/
theorem C7_counterexample_post_sse_not_rewritten :
    (normalizeScope (fun _ => none)
      ⟨[("accept", "application/json")], "http", ("10.0.0.1", 80), ("9.9.9.9", 1234),
        "POST", "/sse", "jsonrpc-body", false, false⟩).path = "/sse" := by
  rfl

/-- C7 amended: the code contains no Method/Path Reconciler — every
Connection, including a `POST` to the event-stream path, passes through
the middleware with its method and path unchanged. -/
theorem C7_amended_method_path_passthrough (env : Env) (s : Scope) :
    (normalizeScope env s).method = s.method ∧
    (normalizeScope env s).path = s.path := by
  exact ⟨rfl, rfl⟩

/-- C8 counterexample: the rewrite domain is parsed from the raw
environment variable `RAILWAY_PUBLIC_DOMAIN` (with a hard-coded default)
at dispatch time — the same Connection normalizes to different headers
under two different environments, so the policy is not a startup-fixed,
read-only configuration value. -/
theorem C8_counterexample_env_read_per_dispatch :
    railwayDomain (fun k => if k == "RAILWAY_PUBLIC_DOMAIN"
      then some "changed.example" else none) = "changed.example" ∧
    railwayDomain (fun _ => none) = "canvas-mcp-production-8183.up.railway.app" ∧
    (normalizeScope (fun k => if k == "RAILWAY_PUBLIC_DOMAIN"
        then some "changed.example" else none)
      ⟨[], "http", ("10.0.0.1", 80), ("9.9.9.9", 1234), "GET", "/sse", "", false, false⟩).headers ≠
    (normalizeScope (fun _ => none)
      ⟨[], "http", ("10.0.0.1", 80), ("9.9.9.9", 1234), "GET", "/sse", "", false, false⟩).headers := by
  decide

/-- C8 amended: on every Connection's dispatch the middleware itself
reads the raw environment variable `RAILWAY_PUBLIC_DOMAIN`, falling back
to a hard-coded domain when it is unset, and rewrites the `host` header
to that value; the rewrite policy is a function of the environment at
request time, not a configuration value fixed read-only at startup by an
external collaborator. -/
theorem C8_amended_raw_env_parsing (env : Env) (s : Scope) :
    (normalizeScope env s).headers.find? (fun p => p.1 == "host") =
      some ("host",
        (env "RAILWAY_PUBLIC_DOMAIN").getD "canvas-mcp-production-8183.up.railway.app") := by
  rfl

/-- C9: after the module-import patching pass, every callable attribute
of the transport-security module whose name contains the substring
"valid" has been replaced by `always_pass`, a function that returns
`True` for every input — so transport-security validation accepts every
request unconditionally. -/
theorem C9_validation_attrs_always_pass (m : List (String × Attr)) (n : String)
    (a : Attr) (x : String) (hmem : (n, a) ∈ m) (hc : a.isCallable = true)
    (hv : "valid".toList <:+: n.toList) :
    (n, Attr.callable always_pass) ∈ patchModule m ∧ always_pass x = true := by
  have hlow : "valid".toList <:+: pyLower n :=
    pyLower_infix_of_infix (by decide) hv
  have hpatch : patchAttr n a = .callable always_pass := by
    rw [patchAttr, looksLikeValidation, hc, containsSubLower, if_pos]
    exact decide_eq_true hlow
  refine ⟨?_, rfl⟩
  have := List.mem_map_of_mem (fun p : String × Attr => (p.1, patchAttr p.1 p.2)) hmem
  rw [patchModule]
  simpa [hpatch] using this

/-- Witness for C9 at a concrete two-attribute module and a concrete
input. -/
theorem C9_validation_attrs_always_pass_witness :
    ("is_valid_host", Attr.callable always_pass) ∈
      patchModule [("settings", .value "cfg"),
        ("is_valid_host", .callable (fun _ => false))] ∧
    always_pass "any-request" = true :=
  C9_validation_attrs_always_pass
    [("settings", .value "cfg"), ("is_valid_host", .callable (fun _ => false))]
    "is_valid_host" (.callable (fun _ => false)) "any-request"
    (by simp) rfl (by decide)

/-- C10: a downstream failure is swallowed and answered with status 200
and an empty body exactly when it is a `ValueError` whose message
contains "validation" case-insensitively; in every other case (a
`ValueError` without that substring, or any other exception type) the
middleware lets the exception propagate unchanged. -/
theorem C10_valueerror_swallow_policy (env : Env) (s : Scope) (e : Exc) :
    (dispatch env s (fun _ => .error e) = .ok ⟨200, ""⟩ ∨
      dispatch env s (fun _ => .error e) = .error e) ∧
    (dispatch env s (fun _ => .error e) = .ok ⟨200, ""⟩ ↔
      ∃ msg, e = .valueError msg ∧ "validation".toList <:+: pyLower msg) := by
  cases e with
  | valueError msg =>
      by_cases hv : "validation".toList <:+: pyLower msg
      · constructor
        · left
          simp only [dispatch, handleException, containsSubLower]
          rw [if_pos (decide_eq_true hv)]
        · simp [dispatch, handleException, containsSubLower, hv]
      · constructor
        · right
          simp only [dispatch, handleException, containsSubLower]
          rw [if_neg]
          simpa using hv
        · simp [dispatch, handleException, containsSubLower, hv]
  | other cls msg =>
      constructor
      · right
        simp [dispatch, handleException]
      · simp [dispatch, handleException]

end CanvasMCP
